import Mathlib

/-!
Verification of the order pub/sub service (`src/publisher/publisher.py`).

The program is a Flask application with two handlers:
  * `submit_order` (POST `/`): generates a UUID, reads `customer` and
    `amount` from the form, parses the amount with Python `float`,
    rejects negative amounts with a `ValueError`, writes the order to a
    DynamoDB table, publishes an SNS notification carrying the customer
    and amount (with the amount repeated as a `Number` message
    attribute), and redirects to the lookup page.  A `ValueError` is
    rendered back with the offending values; any other exception is
    rendered as a generic error message.
  * `request_page` (GET `/request/<uuid:request_id>`): the werkzeug
    `uuid` route converter rejects any path segment that is not in the
    UUID textual form before the handler runs; the handler reads the
    order from the table (keying on `str(request_id)`, the canonical
    lowercase rendering), answers 404 with a message naming the id when
    absent, renders the order when present, and answers 500 when the
    backend raises.

The embedding below models the handlers as pure functions over an
explicit store state, with the success of the two external calls
(DynamoDB `put_item`, SNS `publish`) given as boolean oracles, and
records every attempted store write and publish call so that claims of
the form "the Store/Publisher is not touched" are statable.
-/

namespace PubSub

/-! ### Python float values

`float(...)` in the source produces an IEEE double.  The claims only
ever compare amounts with `0` and carry them around unchanged, so the
value is modelled as either a finite rational (the exact value of the
binary64 datum the parse produces), `nan`, or a signed infinity; the
comparison operators implement the IEEE rules on these cases (`nan`
compares false against everything, and negative zero is the same
value as zero). -/

inductive PyFloat : Type
  | finite (q : ℚ)
  | nan
  | inf
  | negInf
deriving DecidableEq, Repr

/-- IEEE `<` on the modelled float values: `nan` is incomparable. -/
def PyFloat.lt : PyFloat → PyFloat → Bool
  | .nan, _ => false
  | _, .nan => false
  | .negInf, .negInf => false
  | .negInf, _ => true
  | _, .negInf => false
  | .inf, _ => false
  | .finite _, .inf => true
  | .finite a, .finite b => decide (a < b)

/-- IEEE `≤` on the modelled float values: `nan` is incomparable. -/
def PyFloat.le : PyFloat → PyFloat → Bool
  | .nan, _ => false
  | _, .nan => false
  | .negInf, _ => true
  | _, .negInf => false
  | _, .inf => true
  | .inf, _ => false
  | .finite a, .finite b => decide (a ≤ b)

/-- Negation of a float value (the sign of the literal is applied
after its magnitude is parsed). -/
def PyFloat.neg : PyFloat → PyFloat
  | .finite q => .finite (-q)
  | .nan => .nan
  | .inf => .negInf
  | .negInf => .inf

/-- Rendering of a float back to text, standing in for Python `str` on
floats (used only for the SNS `StringValue` attribute; no claim
inspects the characters of the result). -/
def pyFloatStr : PyFloat → String
  | .nan => "nan"
  | .inf => "inf"
  | .negInf => "-inf"
  | .finite q => toString q

/-! ### Parsing: the `float(string)` call of line 51

Python's `float` strips surrounding whitespace, accepts an optional
sign, the special words `nan`/`inf`/`infinity` (case-insensitive), and
decimal literals `digits [. digits] [(e|E) [sign] digits]` with at
least one mantissa digit and optional underscores placed strictly
between digits; everything else raises `ValueError`.  A decimal
literal is rounded to the nearest IEEE binary64 value (ties to even),
with gradual underflow to zero and overflow to infinity, exactly as
CPython's correctly-rounded conversion does; the model carries that
double's exact value as a rational. -/

/-- Split a character list at the first character satisfying `p`;
`none` when no character does. -/
def splitFirst (p : Char → Bool) : List Char → Option (List Char × List Char)
  | [] => none
  | c :: rest =>
    if p c then some ([], rest)
    else match splitFirst p rest with
      | some (a, b) => some (c :: a, b)
      | none => none

/-- Numeric value of a digit string (most significant first). -/
def digitsVal (l : List Char) : ℕ :=
  l.foldl (fun a c => 10 * a + (c.toNat - 48)) 0

/-- Mantissa syntax `digits [. digits]`, with at least one digit in
total.  The result `(n, sh)` denotes the rational `n / 10 ^ sh`. -/
def parseMantissa (l : List Char) : Option (ℕ × ℕ) :=
  match splitFirst (· = '.') l with
  | none =>
    if l ≠ [] ∧ l.all Char.isDigit then some (digitsVal l, 0) else none
  | some (ip, fp) =>
    if (ip ≠ [] ∨ fp ≠ []) ∧ ip.all Char.isDigit ∧ fp.all Char.isDigit then
      some (digitsVal ip * 10 ^ fp.length + digitsVal fp, fp.length)
    else none

/-- Exponent part after `e`/`E`: optional sign, then a nonempty digit
string. -/
def parseExp (l : List Char) : Option ℤ :=
  let (neg, l') := match l with
    | '+' :: r => (false, r)
    | '-' :: r => (true, r)
    | _ => (false, l)
  if l' ≠ [] ∧ l'.all Char.isDigit then
    some (if neg then -(digitsVal l' : ℤ) else (digitsVal l' : ℤ))
  else none

/-- The rational `n / 10 ^ sh × 10 ^ k`, assembled with integer
arithmetic and one normalization. -/
def scaled (n : ℕ) (sh : ℕ) (k : ℤ) : ℚ :=
  if 0 ≤ k then mkRat ((n : ℤ) * 10 ^ k.toNat) (10 ^ sh)
  else mkRat (n : ℤ) (10 ^ (sh + (-k).toNat))

/-- Unsigned decimal literal with optional exponent. -/
def parseDecimal (l : List Char) : Option ℚ :=
  match splitFirst (fun c => c = 'e' ∨ c = 'E') l with
  | none =>
    match parseMantissa l with
    | some (n, sh) => some (scaled n sh 0)
    | none => none
  | some (m, e) =>
    match parseMantissa m, parseExp e with
    | some (n, sh), some k => some (scaled n sh k)
    | _, _ => none

/-- Leading and trailing whitespace removal (Python `float` strips the
input before parsing). -/
def strip (l : List Char) : List Char :=
  ((l.dropWhile Char.isWhitespace).reverse.dropWhile Char.isWhitespace).reverse

/-- Worker for [[stripUnderscores]]: walks the literal keeping the
previous character, removes every underscore that sits directly
between two digits and rejects any other underscore. -/
def stripUnderscoresGo : Option Char → List Char → Option (List Char)
  | _, [] => some []
  | prev, c :: rest =>
    if c = '_' then
      match prev, rest with
      | some p, n :: _ =>
        if p.isDigit && n.isDigit then stripUnderscoresGo (some c) rest
        else none
      | _, _ => none
    else
      match stripUnderscoresGo (some c) rest with
      | some r => some (c :: r)
      | none => none

/-- Underscore grouping in numeric literals: Python accepts an
underscore only directly between two digits ("1_0" parses, "1__0" or
"1_.5" raise `ValueError`); accepted underscores are removed before
parsing. -/
def stripUnderscores (l : List Char) : Option (List Char) :=
  stripUnderscoresGo none l

/-! ### IEEE binary64 rounding

`float()` converts the decimal literal to the nearest double.  The
rounding below is the textbook correctly-rounded conversion: find the
floor base-2 logarithm of the magnitude, quantize at the ulp of that
binade (clamped at the subnormal quantum `2 ^ (-1074)`), round the
mantissa to nearest with ties to even, and classify overflow to
infinity.  All arithmetic is on integers so that the kernel can
evaluate it. -/

/-- Bit length of a natural number, fuel-driven (`n` itself is enough
fuel) so that the kernel can reduce it. -/
def bitlenFuel : ℕ → ℕ → ℕ
  | 0, _ => 0
  | fuel + 1, n => if n = 0 then 0 else bitlenFuel fuel (n / 2) + 1

/-- Bit length: `0` for `0`, otherwise the `k` with
`2 ^ (k - 1) ≤ n < 2 ^ k`. -/
def bitlen (n : ℕ) : ℕ := bitlenFuel n n

/-- Whether `2 ^ c ≤ a / b`, for positive `a` and `b`. -/
def pow2LeRat (c : ℤ) (a b : ℕ) : Bool :=
  if 0 ≤ c then decide (b * 2 ^ c.toNat ≤ a) else decide (b ≤ a * 2 ^ (-c).toNat)

/-- Floor of the base-2 logarithm of `a / b`, for positive `a` and
`b`. -/
def floorLog2 (a b : ℕ) : ℤ :=
  let c : ℤ := (bitlen a : ℤ) - (bitlen b : ℤ)
  if pow2LeRat c a b then c else c - 1

/-- Round `num / den` to the nearest integer, ties to even. -/
def rne (num den : ℕ) : ℕ :=
  let d := num / den
  let r := num % den
  if 2 * r < den then d
  else if den < 2 * r then d + 1
  else if d % 2 = 0 then d else d + 1

/-- Round the positive rational `a / b` to the nearest IEEE binary64
value (ties to even, gradual underflow to zero, overflow to
infinity), returned as its exact value. -/
def roundPos (a b : ℕ) : PyFloat :=
  let e0 := floorLog2 a b
  let e : ℤ := max e0 (-1022)
  let t : ℤ := e - 52
  let m : ℕ := if 0 ≤ t then rne a (b * 2 ^ t.toNat) else rne (a * 2 ^ (-t).toNat) b
  let e2 : ℤ := if m = 2 ^ 53 then e + 1 else e
  let m2 : ℕ := if m = 2 ^ 53 then 2 ^ 52 else m
  if 1023 < e2 then .inf
  else
    let t2 : ℤ := e2 - 52
    .finite (if 0 ≤ t2 then mkRat ((m2 : ℤ) * 2 ^ t2.toNat) 1
             else mkRat (m2 : ℤ) (2 ^ (-t2).toNat))

/-- Round a non-negative exact rational to the nearest binary64
value. -/
def roundToDouble (q : ℚ) : PyFloat :=
  if q = 0 then .finite 0 else roundPos q.num.natAbs q.den

/-- Model of Python `float(s)`: `none` is the `ValueError` outcome. -/
def pyFloat (s : String) : Option PyFloat :=
  let l := strip s.data
  let (neg, lr) := match l with
    | '+' :: r => (false, r)
    | '-' :: r => (true, r)
    | _ => (false, l)
  let low := lr.map Char.toLower
  if low = "nan".toList then some .nan
  else if low = "inf".toList ∨ low = "infinity".toList then
    some (if neg then .negInf else .inf)
  else match stripUnderscores lr with
    | none => none
    | some ld =>
      match parseDecimal ld with
      | some q => some (if neg then (roundToDouble q).neg else roundToDouble q)
      | none => none

/-! ### The order store (DynamoDB table)

`put_item` is an atomic single-key upsert; `get_item` a single-key
read.  The table is modelled as an association list from id to item in
which a put replaces any previous binding of the same key. -/

/-- The item written on lines 57–63: `{'id', 'customer', 'amount'}`. -/
structure Item : Type where
  id : String
  customer : String
  amount : PyFloat
deriving DecidableEq, Repr

/-- The DynamoDB table state. -/
abbrev Store : Type := List (String × Item)

/-- Model of `get_item`: the item bound to `k`, if any. -/
def storeGet (st : Store) (k : String) : Option Item :=
  (st.find? (fun p => p.1 == k)).map (·.2)

/-- Model of `put_item`: bind `item.id` to `item`, replacing any
previous binding of that key. -/
def storePut (st : Store) (item : Item) : Store :=
  (item.id, item) :: st.filter (fun p => !(p.1 == item.id))

/-! ### The SNS publish call of lines 67–79 -/

/-- The serialized message body `json.dumps({'customer': …,
'amount': …})`: the dict literal has exactly these two keys, so the
body is modelled as a record with exactly these two fields. -/
structure SNSBody : Type where
  customer : String
  amount : PyFloat
deriving DecidableEq, Repr

/-- One entry of `MessageAttributes`. -/
structure MessageAttribute : Type where
  dataType : String
  stringValue : String
deriving DecidableEq, Repr

/-- One `sns_client.publish` call. -/
structure SNSPublish : Type where
  targetArn : String
  message : SNSBody
  attributes : List (String × MessageAttribute)
deriving DecidableEq, Repr

/-! ### The POST handler `submit_order` (lines 44–91) -/

/-- The two form fields read on lines 50–51.  (The claims under study
always supply both fields, so they are modelled as present; a missing
field would raise the werkzeug `BadRequestKeyError` before either local
is bound.) -/
structure Form : Type where
  customer : String
  amount : String
deriving DecidableEq, Repr

/-- Outcome of the POST branch of `submit_order`, as seen by the HTTP
caller.

  * `redirect`: line 83, redirect to `/request/<order_id>`.
  * `renderError`: line 87, the `except ValueError` branch rendering
    the error text together with the (bound) `customer` and `amount`
    locals — the `ValidationError` outcome of the spec.
  * `renderErrorGeneric`: line 91, the broad `except Exception` branch
    rendering the generic retry message — the `PersistenceError` /
    `NotificationError` outcome of the spec.
  * `crash`: an unhandled exception escaping the handler (HTTP 500).
    This happens when `float(request.form["amount"])` raises: the
    `except ValueError` branch then references the never-assigned
    local `amount` on line 87 and dies with `UnboundLocalError`. -/
inductive PostResult : Type
  | redirect (location : String)
  | renderError (error : String) (customer : String) (amount : PyFloat)
  | renderErrorGeneric (customer : String) (amount : PyFloat)
  | crash
deriving DecidableEq, Repr

/-- Everything observable about one POST request: the HTTP response,
the table state afterwards, the `put_item` calls attempted and the
`publish` calls attempted (in order). -/
structure SubmitOutcome : Type where
  response : PostResult
  store : Store
  storeWrites : List Item
  publishCalls : List SNSPublish
deriving DecidableEq, Repr

/-- The validation message raised on line 54. -/
def amountErrorMsg : String := "Amount must be a positive number."

/-- Shallow embedding of the POST branch of `submit_order`
(lines 44–91).  `topicArn` is the process-wide SNS topic ARN resolved
at startup; `orderId` is the value of `str(uuid.uuid4())` generated on
line 47; `putOk` / `pubOk` say whether the DynamoDB write and the SNS
publish succeed (a failing backend call raises a non-`ValueError`
exception, landing in the broad `except` of line 89). -/
def submit_order (topicArn : String) (st : Store) (form : Form)
    (orderId : String) (putOk pubOk : Bool) : SubmitOutcome :=
  match pyFloat form.amount with
  | none =>
    -- float() raised ValueError; the except-branch re-render then
    -- crashes on the unbound local `amount`.
    { response := .crash, store := st, storeWrites := [], publishCalls := [] }
  | some amount =>
    if PyFloat.lt amount (.finite 0) then
      { response := .renderError amountErrorMsg form.customer amount,
        store := st, storeWrites := [], publishCalls := [] }
    else
      let item : Item := { id := orderId, customer := form.customer, amount := amount }
      if !putOk then
        -- put_item raised; nothing was written, publish never reached.
        { response := .renderErrorGeneric form.customer amount,
          store := st, storeWrites := [item], publishCalls := [] }
      else
        let st' := storePut st item
        let call : SNSPublish :=
          { targetArn := topicArn,
            message := { customer := form.customer, amount := amount },
            attributes := [("amount", { dataType := "Number", stringValue := pyFloatStr amount })] }
        if !pubOk then
          -- publish raised after the write: generic error, no rollback.
          { response := .renderErrorGeneric form.customer amount,
            store := st', storeWrites := [item], publishCalls := [call] }
        else
          { response := .redirect ("/request/" ++ orderId),
            store := st', storeWrites := [item], publishCalls := [call] }

/-! ### The lookup handler `request_page` (lines 100–114) -/

/-- Split a character list on every occurrence of `sep` (the groups
between separators, in order). -/
def splitOnChar (sep : Char) : List Char → List (List Char)
  | [] => [[]]
  | c :: rest =>
    let r := splitOnChar sep rest
    if c = sep then [] :: r
    else match r with
      | [] => [[c]]
      | g :: gs => (c :: g) :: gs

/-- A hexadecimal digit, either letter case. -/
def isHexChar (c : Char) : Bool :=
  c.isDigit || ('a' ≤ c && c ≤ 'f') || ('A' ≤ c && c ≤ 'F')

/-- The textual form accepted by the werkzeug `uuid` route converter:
five groups of hex digits of lengths 8-4-4-4-12 joined by dashes
(either letter case).  This is the identifier's canonical textual
form; any other path segment fails to match the route. -/
def isUUIDForm (s : String) : Bool :=
  let parts := splitOnChar '-' s.data
  parts.map List.length == [8, 4, 4, 4, 12] &&
    parts.all (fun p => p.all isHexChar)

/-- Model of `str(request_id)` for a path segment accepted by the
converter: `uuid.UUID` renders canonically in lowercase hex. -/
def uuidStr (s : String) : String := String.mk (s.data.map Char.toLower)

/-- Outcome of `GET /request/<uuid:request_id>`.

  * `validationError`: the route converter rejected the malformed id
    before the handler body ran — the spec's `ValidationError`.
  * `notFound`: line 108, status 404 with the given message.
  * `rendered`: line 110, status 200 rendering the item.
  * `serverError`: line 114, status 500 on a backend failure. -/
inductive LookupResult : Type
  | validationError
  | notFound (msg : String)
  | rendered (item : Item)
  | serverError
deriving DecidableEq, Repr

/-- HTTP status of a lookup outcome (a rejected route is a 404 at the
HTTP level, but no store access has happened). -/
def LookupResult.status : LookupResult → ℕ
  | .validationError => 404
  | .notFound _ => 404
  | .rendered _ => 200
  | .serverError => 500

/-- Everything observable about one lookup request: the response and
the keys the handler asked the store for. -/
structure LookupOutcome : Type where
  response : LookupResult
  storeGets : List String
deriving DecidableEq, Repr

/-- Shallow embedding of `request_page` (lines 100–114).  `getOk` says
whether the DynamoDB read succeeds (a failure raises, landing in the
broad `except` of line 112). -/
def request_page (st : Store) (getOk : Bool) (id : String) : LookupOutcome :=
  if !(isUUIDForm id) then
    { response := .validationError, storeGets := [] }
  else
    let key := uuidStr id
    if !getOk then
      { response := .serverError, storeGets := [key] }
    else
      match storeGet st key with
      | none =>
        { response := .notFound ("Order with ID " ++ key ++ " not found."),
          storeGets := [key] }
      | some item =>
        { response := .rendered item, storeGets := [key] }

/-! ### Parser fidelity checks

Concrete agreements between `pyFloat` and CPython `float()` on the
boundary behaviours of the binary64 conversion. -/

/-- The literal "0.1" parses to the exact value of the nearest double,
not to the exact decimal one tenth. -/
theorem pyFloat_rounds_to_nearest_double :
    pyFloat "0.1" = some (.finite (mkRat 3602879701896397 36028797018963968)) := by
  decide

set_option maxRecDepth 40000 in
/-- A negative literal below the subnormal range underflows to zero
(CPython: `float("-1e-400")` is `-0.0`), which is not below `0`; the
handler therefore accepts and persists such a submission. -/
theorem pyFloat_tiny_negative_underflows_and_is_accepted :
    pyFloat "-1e-400" = some (.finite 0) ∧
    PyFloat.lt (.finite 0) (.finite 0) = false ∧
    (submit_order "arn" [] ⟨"Jane Doe", "-1e-400"⟩ "id1" true true).response
        = .redirect "/request/id1" := by
  decide

set_option maxRecDepth 40000 in
/-- A literal beyond the double range parses to infinity, as in
CPython. -/
theorem pyFloat_overflows_to_infinity :
    pyFloat "1e400" = some .inf ∧ pyFloat "-1e400" = some .negInf := by
  decide

/-- Underscores are accepted exactly between digits, as in CPython. -/
theorem pyFloat_underscore_literals :
    pyFloat "1_0" = some (.finite (mkRat 10 1)) ∧ pyFloat "1__0" = none := by
  decide

/-! ### Helper lemmas -/

/-- An amount at least `0` in the IEEE order is not below `0`. -/
theorem PyFloat.not_lt_zero_of_zero_le (a : PyFloat)
    (h : PyFloat.le (.finite 0) a = true) :
    PyFloat.lt a (.finite 0) = false := by
  cases a with
  | finite q =>
    simp only [PyFloat.le, decide_eq_true_eq] at h
    simp only [PyFloat.lt, decide_eq_false_iff_not, not_lt]
    exact h
  | nan => simp [PyFloat.le] at h
  | inf => rfl
  | negInf => simp [PyFloat.le] at h

/-- Reading back the key just written returns the written item. -/
theorem storeGet_storePut_self (st : Store) (item : Item) :
    storeGet (storePut st item) item.id = some item := by
  simp [storeGet, storePut, List.find?]

/-- When the DynamoDB write fails, no publish call is ever attempted,
whatever the form contents. -/
theorem submit_order_put_failed_no_publish (topicArn : String) (st : Store)
    (form : Form) (orderId : String) (pubOk : Bool) :
    (submit_order topicArn st form orderId false pubOk).publishCalls = [] := by
  unfold submit_order
  cases pyFloat form.amount with
  | none => rfl
  | some a =>
    by_cases h : PyFloat.lt a (.finite 0) = true
    · simp [h]
    · simp [h]

/-! ### The claims -/

/-- C1: for every submission with a non-empty customer and an amount
parsing as a decimal at least `0`, when the store write and the publish
both succeed, `submit_order` redirects to an id under which an
immediate lookup renders a record carrying exactly the submitted
customer and the parsed amount.  (The id is the canonical lowercase
rendering of the generated UUID, hence the two hypotheses on it.) -/
theorem C1_submit_then_lookup (topicArn : String) (st : Store) (form : Form)
    (orderId : String) (a : PyFloat)
    (hcust : form.customer ≠ "")
    (hparse : pyFloat form.amount = some a)
    (hnonneg : PyFloat.le (.finite 0) a = true)
    (hid : isUUIDForm orderId = true)
    (hlow : uuidStr orderId = orderId) :
    (submit_order topicArn st form orderId true true).response
        = .redirect ("/request/" ++ orderId) ∧
    (request_page (submit_order topicArn st form orderId true true).store true orderId).response
        = .rendered { id := orderId, customer := form.customer, amount := a } := by
  have hlt := PyFloat.not_lt_zero_of_zero_le a hnonneg
  have hsub : submit_order topicArn st form orderId true true =
      { response := .redirect ("/request/" ++ orderId),
        store := storePut st { id := orderId, customer := form.customer, amount := a },
        storeWrites := [{ id := orderId, customer := form.customer, amount := a }],
        publishCalls := [{ targetArn := topicArn,
                           message := { customer := form.customer, amount := a },
                           attributes := [("amount",
                             { dataType := "Number", stringValue := pyFloatStr a })] }] } := by
    simp [submit_order, hparse, hlt]
  refine ⟨by rw [hsub], ?_⟩
  rw [hsub]
  have hget := storeGet_storePut_self st
      { id := orderId, customer := form.customer, amount := a }
  simp [request_page, hid, hlow, hget]

/-- Witness for C1 at a concrete valid submission. -/
theorem C1_submit_then_lookup_witness :
    (submit_order "arn" [] ⟨"Jane Doe", "42.5"⟩
        "00000000-0000-0000-0000-000000000000" true true).response
        = .redirect ("/request/" ++ "00000000-0000-0000-0000-000000000000") ∧
    (request_page (submit_order "arn" [] ⟨"Jane Doe", "42.5"⟩
        "00000000-0000-0000-0000-000000000000" true true).store true
        "00000000-0000-0000-0000-000000000000").response
        = .rendered { id := "00000000-0000-0000-0000-000000000000",
                      customer := "Jane Doe", amount := .finite (mkRat 85 2) } :=
  C1_submit_then_lookup "arn" [] ⟨"Jane Doe", "42.5"⟩
    "00000000-0000-0000-0000-000000000000" (.finite (mkRat 85 2))
    (by decide) (by decide) (by decide) (by decide) (by decide)

/-- C2 counterexample: the submission with an empty customer and amount
text "10.0" is not rejected: it redirects, writes the order, and the
store afterwards holds a record with an empty customer. -/
theorem C2_counterexample_empty_customer_accepted :
    (submit_order "arn" [] ⟨"", "10.0"⟩
        "00000000-0000-0000-0000-000000000000" true true).response
        = .redirect "/request/00000000-0000-0000-0000-000000000000" ∧
    (submit_order "arn" [] ⟨"", "10.0"⟩
        "00000000-0000-0000-0000-000000000000" true true).storeWrites
        = [{ id := "00000000-0000-0000-0000-000000000000", customer := "",
             amount := .finite (mkRat 10 1) }] ∧
    storeGet (submit_order "arn" [] ⟨"", "10.0"⟩
        "00000000-0000-0000-0000-000000000000" true true).store
        "00000000-0000-0000-0000-000000000000"
        = some { id := "00000000-0000-0000-0000-000000000000", customer := "",
                 amount := .finite (mkRat 10 1) } := by
  exact ⟨rfl, rfl, rfl⟩

/-- C2 amended: the handler never validates the customer field.  A
submission with an empty customer and an amount parsing as a decimal
at least `0` proceeds exactly like a valid one — it is written to the
store (and published), so records with an empty customer can exist in
the store. -/
theorem C2_amended_no_customer_validation (topicArn : String) (st : Store)
    (form : Form) (orderId : String) (a : PyFloat)
    (hempty : form.customer = "")
    (hparse : pyFloat form.amount = some a)
    (hnonneg : PyFloat.le (.finite 0) a = true) :
    (submit_order topicArn st form orderId true true).response
        = .redirect ("/request/" ++ orderId) ∧
    (submit_order topicArn st form orderId true true).storeWrites
        = [{ id := orderId, customer := "", amount := a }] ∧
    storeGet (submit_order topicArn st form orderId true true).store orderId
        = some { id := orderId, customer := "", amount := a } := by
  have hlt := PyFloat.not_lt_zero_of_zero_le a hnonneg
  have hget := storeGet_storePut_self st
      { id := orderId, customer := form.customer, amount := a }
  simp [submit_order, hparse, hlt, hempty] at hget ⊢
  exact hget

/-- Witness for the amended C2 at a concrete empty-customer input. -/
theorem C2_amended_no_customer_validation_witness :
    (submit_order "arn" [] ⟨"", "10.0"⟩ "aa" true true).response
        = .redirect ("/request/" ++ "aa") ∧
    (submit_order "arn" [] ⟨"", "10.0"⟩ "aa" true true).storeWrites
        = [{ id := "aa", customer := "", amount := .finite (mkRat 10 1) }] ∧
    storeGet (submit_order "arn" [] ⟨"", "10.0"⟩ "aa" true true).store "aa"
        = some { id := "aa", customer := "", amount := .finite (mkRat 10 1) } :=
  C2_amended_no_customer_validation "arn" [] ⟨"", "10.0"⟩ "aa"
    (.finite (mkRat 10 1)) (by decide) (by decide) (by decide)

/-- C3: a submission whose amount parses as a decimal strictly below
`0` is rejected with the validation message; no store write and no
publish call happen, and the store is unchanged. -/
theorem C3_negative_amount_rejected (topicArn : String) (st : Store)
    (form : Form) (orderId : String) (putOk pubOk : Bool) (a : PyFloat)
    (hparse : pyFloat form.amount = some a)
    (hneg : PyFloat.lt a (.finite 0) = true) :
    submit_order topicArn st form orderId putOk pubOk =
      { response := .renderError amountErrorMsg form.customer a,
        store := st, storeWrites := [], publishCalls := [] } := by
  simp [submit_order, hparse, hneg]

/-- Witness for C3 at the concrete submission of amount "-5.0". -/
theorem C3_negative_amount_rejected_witness :
    submit_order "arn" [] ⟨"John Doe", "-5.0"⟩ "id1" true true =
      { response := .renderError amountErrorMsg "John Doe"
          (.finite (-(mkRat 5 1))),
        store := [], storeWrites := [], publishCalls := [] } :=
  C3_negative_amount_rejected "arn" [] ⟨"John Doe", "-5.0"⟩ "id1" true true
    (.finite (-(mkRat 5 1))) (by decide) (by decide)

/-- C4: the publisher is only ever invoked after a successful store
write — any run that attempted a publish had a succeeding write — and
when the write fails the handler answers the generic backend-error
page (the PersistenceError outcome), attempts no publish, and leaves
the store unchanged. -/
theorem C4_publish_only_after_write (topicArn : String) (st : Store)
    (form : Form) (orderId : String) (putOk pubOk : Bool) (a : PyFloat)
    (hparse : pyFloat form.amount = some a)
    (hnotneg : PyFloat.lt a (.finite 0) = false)
    (hpub : (submit_order topicArn st form orderId putOk pubOk).publishCalls ≠ []) :
    putOk = true ∧
    submit_order topicArn st form orderId false pubOk =
      { response := .renderErrorGeneric form.customer a,
        store := st,
        storeWrites := [{ id := orderId, customer := form.customer, amount := a }],
        publishCalls := [] } := by
  constructor
  · cases putOk with
    | true => rfl
    | false =>
      exact absurd (submit_order_put_failed_no_publish topicArn st form orderId pubOk) hpub
  · simp [submit_order, hparse, hnotneg]

/-- Witness for C4 at a concrete submission. -/
theorem C4_publish_only_after_write_witness :
    (true : Bool) = true ∧
    submit_order "arn" [] ⟨"Jane Doe", "42.5"⟩ "id1" false true =
      { response := .renderErrorGeneric "Jane Doe" (.finite (mkRat 85 2)),
        store := [],
        storeWrites := [{ id := "id1", customer := "Jane Doe",
                          amount := .finite (mkRat 85 2) }],
        publishCalls := [] } :=
  C4_publish_only_after_write "arn" [] ⟨"Jane Doe", "42.5"⟩ "id1" true true
    (.finite (mkRat 85 2)) (by decide) (by decide) (by decide)

/-- C5: when the store write succeeds but the publish fails, the
handler answers the generic error page, yet the written order is not
rolled back: looking the generated id up afterwards still renders the
persisted record. -/
theorem C5_no_rollback_on_publish_failure (topicArn : String) (st : Store)
    (form : Form) (orderId : String) (a : PyFloat)
    (hparse : pyFloat form.amount = some a)
    (hnonneg : PyFloat.le (.finite 0) a = true)
    (hid : isUUIDForm orderId = true)
    (hlow : uuidStr orderId = orderId) :
    (submit_order topicArn st form orderId true false).response
        = .renderErrorGeneric form.customer a ∧
    (request_page (submit_order topicArn st form orderId true false).store true orderId).response
        = .rendered { id := orderId, customer := form.customer, amount := a } := by
  have hlt := PyFloat.not_lt_zero_of_zero_le a hnonneg
  have hsub : submit_order topicArn st form orderId true false =
      { response := .renderErrorGeneric form.customer a,
        store := storePut st { id := orderId, customer := form.customer, amount := a },
        storeWrites := [{ id := orderId, customer := form.customer, amount := a }],
        publishCalls := [{ targetArn := topicArn,
                           message := { customer := form.customer, amount := a },
                           attributes := [("amount",
                             { dataType := "Number", stringValue := pyFloatStr a })] }] } := by
    simp [submit_order, hparse, hlt]
  refine ⟨by rw [hsub], ?_⟩
  rw [hsub]
  have hget := storeGet_storePut_self st
      { id := orderId, customer := form.customer, amount := a }
  simp [request_page, hid, hlow, hget]

/-- Witness for C5 at a concrete submission with a failing publish. -/
theorem C5_no_rollback_on_publish_failure_witness :
    (submit_order "arn" [] ⟨"Jane Doe", "42.5"⟩
        "00000000-0000-0000-0000-000000000000" true false).response
        = .renderErrorGeneric "Jane Doe" (.finite (mkRat 85 2)) ∧
    (request_page (submit_order "arn" [] ⟨"Jane Doe", "42.5"⟩
        "00000000-0000-0000-0000-000000000000" true false).store true
        "00000000-0000-0000-0000-000000000000").response
        = .rendered { id := "00000000-0000-0000-0000-000000000000",
                      customer := "Jane Doe", amount := .finite (mkRat 85 2) } :=
  C5_no_rollback_on_publish_failure "arn" [] ⟨"Jane Doe", "42.5"⟩
    "00000000-0000-0000-0000-000000000000" (.finite (mkRat 85 2))
    (by decide) (by decide) (by decide) (by decide)

/-- C6: a lookup whose id is not in the canonical UUID textual form is
rejected by the route converter before the handler runs: the outcome
is the validation rejection and the store is asked for nothing. -/
theorem C6_malformed_id_rejected_before_store (st : Store) (getOk : Bool)
    (id : String) (hmal : isUUIDForm id = false) :
    request_page st getOk id =
      { response := .validationError, storeGets := [] } := by
  simp [request_page, hmal]

/-- Witness for C6 at the concrete malformed id of the spec scenario. -/
theorem C6_malformed_id_rejected_before_store_witness :
    request_page [] true "not-a-valid-id" =
      { response := .validationError, storeGets := [] } :=
  C6_malformed_id_rejected_before_store [] true "not-a-valid-id" (by decide)

/-- C7: a lookup on a well-formed id whose key is absent from the
store answers 404 with a message naming that identifier (in its
canonical lowercase rendering). -/
theorem C7_absent_id_not_found (st : Store) (id : String)
    (hid : isUUIDForm id = true)
    (habs : storeGet st (uuidStr id) = none) :
    request_page st true id =
      { response := .notFound ("Order with ID " ++ uuidStr id ++ " not found."),
        storeGets := [uuidStr id] } ∧
    (request_page st true id).response.status = 404 := by
  have h1 : request_page st true id =
      { response := .notFound ("Order with ID " ++ uuidStr id ++ " not found."),
        storeGets := [uuidStr id] } := by
    simp [request_page, hid, habs]
  exact ⟨h1, by rw [h1]; rfl⟩

/-- Witness for C7 at the never-issued all-zero UUID of the spec
scenario, against the empty store. -/
theorem C7_absent_id_not_found_witness :
    request_page [] true "00000000-0000-0000-0000-000000000000" =
      { response := .notFound ("Order with ID "
          ++ uuidStr "00000000-0000-0000-0000-000000000000" ++ " not found."),
        storeGets := [uuidStr "00000000-0000-0000-0000-000000000000"] } ∧
    (request_page [] true "00000000-0000-0000-0000-000000000000").response.status = 404 :=
  C7_absent_id_not_found [] "00000000-0000-0000-0000-000000000000"
    (by decide) (by decide)

/-- C8 (code bug evidence): on the submission of customer "Jane Doe"
with the unparseable amount text "abc", the amount local is never
assigned, so the re-render of line 87 dies with an unbound-variable
error instead of re-presenting the input: the handler itself fails
(HTTP 500), writing and publishing nothing. -/
theorem C8_unparseable_amount_crashes_rerender :
    submit_order "arn" [] ⟨"Jane Doe", "abc"⟩
        "00000000-0000-0000-0000-000000000000" true true =
      { response := .crash, store := [], storeWrites := [], publishCalls := [] } ∧
    pyFloat "abc" = none := by
  exact ⟨rfl, rfl⟩

/-- C9: a successful submission publishes exactly one event whose body
carries exactly the submitted customer and the parsed amount (and no
order id — the body type has no id field and the published value does
not depend on the generated id), together with the amount as a
`Number`-typed attribute named "amount". -/
theorem C9_publish_payload (topicArn : String) (st : Store) (form : Form)
    (orderId : String) (a : PyFloat)
    (hparse : pyFloat form.amount = some a)
    (hnonneg : PyFloat.le (.finite 0) a = true) :
    (submit_order topicArn st form orderId true true).response
        = .redirect ("/request/" ++ orderId) ∧
    (submit_order topicArn st form orderId true true).publishCalls
        = [{ targetArn := topicArn,
             message := { customer := form.customer, amount := a },
             attributes := [("amount",
               { dataType := "Number", stringValue := pyFloatStr a })] }] := by
  have hlt := PyFloat.not_lt_zero_of_zero_le a hnonneg
  simp [submit_order, hparse, hlt]

/-- Witness for C9 at a concrete successful submission. -/
theorem C9_publish_payload_witness :
    (submit_order "arn" [] ⟨"Jane Doe", "42.5"⟩ "id1" true true).response
        = .redirect ("/request/" ++ "id1") ∧
    (submit_order "arn" [] ⟨"Jane Doe", "42.5"⟩ "id1" true true).publishCalls
        = [{ targetArn := "arn",
             message := { customer := "Jane Doe", amount := .finite (mkRat 85 2) },
             attributes := [("amount",
               { dataType := "Number",
                 stringValue := pyFloatStr (.finite (mkRat 85 2)) })] }] :=
  C9_publish_payload "arn" [] ⟨"Jane Doe", "42.5"⟩ "id1"
    (.finite (mkRat 85 2)) (by decide) (by decide)

/-- C10: the amount text "nan" parses as the float NaN, for which the
negativity check of line 53 is false; the submission therefore
proceeds, the order is persisted with amount NaN, and that stored
amount does not satisfy amount at least `0` — so not every stored
order has a non-negative amount. -/
theorem C10_nan_amount_persisted :
    pyFloat "nan" = some .nan ∧
    PyFloat.lt .nan (.finite 0) = false ∧
    (submit_order "arn" [] ⟨"Jane Doe", "nan"⟩
        "00000000-0000-0000-0000-000000000000" true true).response
        = .redirect "/request/00000000-0000-0000-0000-000000000000" ∧
    storeGet (submit_order "arn" [] ⟨"Jane Doe", "nan"⟩
        "00000000-0000-0000-0000-000000000000" true true).store
        "00000000-0000-0000-0000-000000000000"
        = some { id := "00000000-0000-0000-0000-000000000000",
                 customer := "Jane Doe", amount := .nan } ∧
    PyFloat.le (.finite 0) .nan = false := by
  exact ⟨rfl, rfl, rfl, rfl, rfl⟩

end PubSub
